import Mathlib

/-!
# Verification of the Prellblock c-client benchmark harness

Shallow embedding of `src/c-client/client.cpp` (the whole program is the
single function `main`) and proofs of the specification claims about it.

The program is straight-line code:

* read `std::chrono::system_clock::now()` (start),
* `prellblock::create_client_instance("127.0.0.1:3133", <credential>)`,
* loop `i = 0 .. NUM_TX-1`: `sprintf(number, "%lu", i)` into a 10-byte
  buffer, then `prellblock::send_key_value(client, "prellblock", number)`,
* `prellblock::destroy_client_instance(client)`,
* read `now()` (end), compute `microseconds`, `seconds`, print the report,
* `return 0`.

We model a run as the list of externally visible events it performs, in
program order.  The external collaborator (the `prellblock` client library,
which is not part of `src/`) is modelled by its observable responses: the
handle returned by `create_client_instance` (an integer standing for the
`Client*` pointer, `0` standing for a null / failed handle) and, for each
submission, whether the remote acknowledged it (a `Bool` the harness never
looks at).  Clock readings are supplied by a function `clock : ℕ → ℤ`
giving the value (in microseconds) of the k-th `now()` call.

`NUM_TX` is the `#define NUM_TX 10000` macro; the run function `runN` is
parameterised over that count so that claims quantified over "every N" can
be stated, and `run` instantiates it at the configured value `10000`.
-/

set_option autoImplicit false

namespace CClient

/-- The `#define NUM_TX 10000` macro of `client.cpp`. -/
def NUM_TX : ℕ := 10000

/-- The hard-coded endpoint passed to `create_client_instance`. -/
def targetAddress : String := "127.0.0.1:3133"

/-- The hard-coded credential passed to `create_client_instance`. -/
def credential : String :=
  "406ed6170c8672e18707fb7512acf3c9dbfc6e5ad267d9a57b9c486a94d99dcc"

/-- The hard-coded key namespace passed to every `send_key_value` call. -/
def keyNamespace : String := "prellblock"

/-- Capacity of the value buffer `const char number[10]`, in bytes
(including the terminating NUL that `sprintf` writes). -/
def valueBufferCapacity : ℕ := 10

/-- Number of bytes `sprintf((char *)number, "%lu", i)` writes into the
value buffer: the decimal digits of `i` plus the terminating NUL.  The
write stays in bounds exactly when this is at most `valueBufferCapacity`. -/
def sprintfBytes (i : ℕ) : ℕ := (Nat.repr i).length + 1

/-- Result of a C++ `double` computation, modelled over exact rationals
(rounding of in-range finite values is ignored) together with the IEEE 754
special values that zero-divisors produce. -/
inductive DVal : Type
  | fin (q : ℚ)
  | posInf
  | negInf
  | nan
deriving DecidableEq

/-- IEEE 754 division of two finite doubles (the only division `client.cpp`
performs): a nonzero divisor gives the exact quotient; a zero divisor gives
`+∞`, `-∞` or NaN according to the numerator's sign, never a fault. -/
def ddiv (a b : ℚ) : DVal :=
  if b = 0 then (if 0 < a then DVal.posInf else if a < 0 then DVal.negInf else DVal.nan)
  else DVal.fin (a / b)

/-- `duration_cast<microseconds>(end - start).count()` with both
`time_point`s modelled in microseconds. -/
def elapsedMicros (tstart tend : ℤ) : ℤ := tend - tstart

/-- `const double seconds = (double)microseconds / 1000 / 1000;`. -/
def elapsedSeconds (micros : ℤ) : ℚ := (micros : ℚ) / 1000 / 1000

/-- `(double)NUM_TX / seconds`, the reported TPS value. -/
def tpsOf (count : ℕ) (micros : ℤ) : DVal :=
  ddiv (count : ℚ) (elapsedSeconds micros)

/-- One item of the `std::cout << ...` chain: a string literal, an integer,
or a double value.  (The report is modelled structurally; the decimal
rendering of doubles by `operator<<` is not re-specified.) -/
inductive OutItem : Type
  | str (s : String)
  | nat (n : ℕ)
  | dbl (d : DVal)
deriving DecidableEq

/-- The report `client.cpp` prints, item by item of the `<<` chain:
`"Sending " << NUM_TX << " transactions took " << seconds
<< "s, resulting in " << NUM_TX / seconds << "TPS." << std::endl`. -/
def reportItems (count : ℕ) (micros : ℤ) : List OutItem :=
  [OutItem.str "Sending ",
   OutItem.nat count,
   OutItem.str " transactions took ",
   OutItem.dbl (DVal.fin (elapsedSeconds micros)),
   OutItem.str "s, resulting in ",
   OutItem.dbl (tpsOf count micros),
   OutItem.str "TPS.",
   OutItem.str "\n"]

/-- Externally visible events of a run, in program order.  `clockRead k t`
is the k-th `system_clock::now()` call returning `t`; `connect` records the
arguments of `create_client_instance` and the handle it returned; `submit`
records one `send_key_value` call (handle, key, value) and whether the
remote acknowledged it; `close` is `destroy_client_instance`; `report` is
the `std::cout` output; `exitCode` is `main`'s return value. -/
inductive Event : Type
  | clockRead (k : ℕ) (t : ℤ)
  | connect (addr cred : String) (handle : ℤ)
  | submit (handle : ℤ) (key value : String) (ack : Bool)
  | close (handle : ℤ)
  | report (items : List OutItem)
  | exitCode (c : ℤ)
deriving DecidableEq

/-- The trace of `main`, with the `NUM_TX` macro generalised to `n`.
Faithful to the statement order of `client.cpp`: the start clock read
precedes `create_client_instance`; the `n` submissions follow, the i-th
formatting `i` with `sprintf("%lu", i)` (modelled by `Nat.repr`, exact
decimal formatting) and submitting it under key `"prellblock"`;
`destroy_client_instance` precedes the end clock read; the report and
`return 0` close the run.  `handle` is whatever `create_client_instance`
returned and `ack i` whatever the i-th `send_key_value` reported; neither
is inspected anywhere.

Fidelity bound: `Nat.repr i` models the `sprintf` into the fixed buffer
`const char number[10]` exactly only while the formatted string and its
terminating NUL fit the 10 bytes, i.e. for `i < 10 ^ 9`.  For larger `i`
the source writes past the end of `number` (the fixed-buffer bug the spec
flags in its §4.1 and §9) and this model does not represent that overflow;
theorems quantifying over `n` beyond that regime must carry the fit
condition as a hypothesis (see `sprintfBytes`). -/
def runN (n : ℕ) (clock : ℕ → ℤ) (handle : ℤ) (ack : ℕ → Bool) : List Event :=
  [Event.clockRead 0 (clock 0),
   Event.connect targetAddress credential handle]
  ++ (List.range n).map (fun i => Event.submit handle keyNamespace (Nat.repr i) (ack i))
  ++ [Event.close handle,
      Event.clockRead 1 (clock 1),
      Event.report (reportItems n (elapsedMicros (clock 0) (clock 1))),
      Event.exitCode 0]

/-- The trace of the program as configured: `NUM_TX = 10000`. -/
def run : (ℕ → ℤ) → ℤ → (ℕ → Bool) → List Event := runN NUM_TX

/-- `client.cpp` has `int main(void)`: the process receives a command line
but the program cannot and does not read it, so the trace is a constant
function of `argv`. -/
def runConfigured (_argv : List String) : (ℕ → ℤ) → ℤ → (ℕ → Bool) → List Event :=
  fun clock handle ack => run clock handle ack

/-- The (key, value) pairs submitted in a trace, in submission order. -/
def submittedPairs (t : List Event) : List (String × String) :=
  t.filterMap fun e =>
    match e with
    | Event.submit _ k v _ => some (k, v)
    | _ => none

/-- Number of `destroy_client_instance` (close) events in a trace. -/
def closeCount (t : List Event) : ℕ :=
  t.countP fun e =>
    match e with
    | Event.close _ => true
    | _ => false

/-- Number of submissions the remote acknowledged — the "successful
submission count" of the specification.  The harness itself never computes
this; it is an observable of the trace. -/
def successfulCount (t : List Event) : ℕ :=
  t.countP fun e =>
    match e with
    | Event.submit _ _ _ ack => ack
    | _ => false

/-- The reports printed in a trace. -/
def reportsOf (t : List Event) : List (List OutItem) :=
  t.filterMap fun e =>
    match e with
    | Event.report items => some items
    | _ => none

/-- The exit codes of a trace. -/
def exitCodesOf (t : List Event) : List ℤ :=
  t.filterMap fun e =>
    match e with
    | Event.exitCode c => some c
    | _ => none

/-- Whether some printed item of a report renders the number `m` (as the
integer item `m` or the finite double `m`). -/
def mentionsNat (items : List OutItem) (m : ℕ) : Bool :=
  items.any fun it =>
    match it with
    | OutItem.nat k => k == m
    | OutItem.dbl (DVal.fin q) => q == (m : ℚ)
    | _ => false

example : runN 2 (fun k => (k : ℤ)) 7 (fun _ => true) =
    [Event.clockRead 0 0, Event.connect targetAddress credential 7,
     Event.submit 7 keyNamespace "0" true, Event.submit 7 keyNamespace "1" true,
     Event.close 7, Event.clockRead 1 1,
     Event.report (reportItems 2 1), Event.exitCode 0] := rfl

example : submittedPairs (runN 3 (fun _ => 0) 1 (fun _ => true)) =
    [("prellblock", "0"), ("prellblock", "1"), ("prellblock", "2")] := by
  decide

/-! ## Structural lemmas about the trace -/

theorem filterMap_some_eq_map {α β : Type} (f : α → β) (l : List α) :
    l.filterMap (fun x => some (f x)) = l.map f :=
  congrFun (List.filterMap_eq_map f) l

theorem submittedPairs_runN (n : ℕ) (clk : ℕ → ℤ) (h : ℤ) (ack : ℕ → Bool) :
    submittedPairs (runN n clk h ack) =
      (List.range n).map (fun i => (keyNamespace, Nat.repr i)) := by
  simp [runN, submittedPairs, List.filterMap_map, Function.comp_def]
  exact filterMap_some_eq_map (fun i => (keyNamespace, Nat.repr i)) (List.range n)

theorem submittedPairs_length_runN (n : ℕ) (clk : ℕ → ℤ) (h : ℤ) (ack : ℕ → Bool) :
    (submittedPairs (runN n clk h ack)).length = n := by
  simp [submittedPairs_runN]

theorem closeCount_runN (n : ℕ) (clk : ℕ → ℤ) (h : ℤ) (ack : ℕ → Bool) :
    closeCount (runN n clk h ack) = 1 := by
  simp [runN, closeCount, List.countP_map, Function.comp_def, List.countP_cons]

theorem successfulCount_runN (n : ℕ) (clk : ℕ → ℤ) (h : ℤ) (ack : ℕ → Bool) :
    successfulCount (runN n clk h ack) = (List.range n).countP (fun i => ack i) := by
  simp [runN, successfulCount, List.countP_map, Function.comp_def, List.countP_cons]

theorem reportsOf_runN (n : ℕ) (clk : ℕ → ℤ) (h : ℤ) (ack : ℕ → Bool) :
    reportsOf (runN n clk h ack) =
      [reportItems n (elapsedMicros (clk 0) (clk 1))] := by
  simp [runN, reportsOf, List.filterMap_map, Function.comp_def]

theorem exitCodesOf_runN (n : ℕ) (clk : ℕ → ℤ) (h : ℤ) (ack : ℕ → Bool) :
    exitCodesOf (runN n clk h ack) = [0] := by
  simp [runN, exitCodesOf, List.filterMap_map, Function.comp_def]

theorem runN_split (n : ℕ) (clk : ℕ → ℤ) (h : ℤ) (ack : ℕ → Bool) :
    runN n clk h ack =
      ([Event.clockRead 0 (clk 0), Event.connect targetAddress credential h]
        ++ (List.range n).map (fun i => Event.submit h keyNamespace (Nat.repr i) (ack i)))
      ++ [Event.close h, Event.clockRead 1 (clk 1),
          Event.report (reportItems n (elapsedMicros (clk 0) (clk 1))),
          Event.exitCode 0] := by
  simp [runN]

theorem runN_take_two (n : ℕ) (clk : ℕ → ℤ) (h : ℤ) (ack : ℕ → Bool) :
    (runN n clk h ack).take 2 =
      [Event.clockRead 0 (clk 0), Event.connect targetAddress credential h] := rfl

theorem runN_drop (n : ℕ) (clk : ℕ → ℤ) (h : ℤ) (ack : ℕ → Bool) :
    (runN n clk h ack).drop (2 + n) =
      [Event.close h, Event.clockRead 1 (clk 1),
       Event.report (reportItems n (elapsedMicros (clk 0) (clk 1))),
       Event.exitCode 0] := by
  rw [runN_split]
  apply List.drop_left'
  simp
  omega

theorem runN_getElem_zero (n : ℕ) (clk : ℕ → ℤ) (h : ℤ) (ack : ℕ → Bool) :
    (runN n clk h ack)[0]? = some (Event.clockRead 0 (clk 0)) := rfl

theorem runN_getElem_one (n : ℕ) (clk : ℕ → ℤ) (h : ℤ) (ack : ℕ → Bool) :
    (runN n clk h ack)[1]? = some (Event.connect targetAddress credential h) := by
  simp [runN]

theorem runN_getElem_close (n : ℕ) (clk : ℕ → ℤ) (h : ℤ) (ack : ℕ → Bool) :
    (runN n clk h ack)[2 + n]? = some (Event.close h) := by
  have hlen : ([Event.clockRead 0 (clk 0), Event.connect targetAddress credential h]
      ++ (List.range n).map (fun i => Event.submit h keyNamespace (Nat.repr i) (ack i))).length
      = 2 + n := by
    simp
    omega
  have hle : ([Event.clockRead 0 (clk 0), Event.connect targetAddress credential h]
      ++ (List.range n).map (fun i => Event.submit h keyNamespace (Nat.repr i) (ack i))).length
      ≤ 2 + n := by
    omega
  rw [runN_split, List.getElem?_append_right hle, hlen, Nat.sub_self]
  rfl

theorem runN_getElem_clockEnd (n : ℕ) (clk : ℕ → ℤ) (h : ℤ) (ack : ℕ → Bool) :
    (runN n clk h ack)[3 + n]? = some (Event.clockRead 1 (clk 1)) := by
  have hlen : ([Event.clockRead 0 (clk 0), Event.connect targetAddress credential h]
      ++ (List.range n).map (fun i => Event.submit h keyNamespace (Nat.repr i) (ack i))).length
      = 2 + n := by
    simp
    omega
  have hle : ([Event.clockRead 0 (clk 0), Event.connect targetAddress credential h]
      ++ (List.range n).map (fun i => Event.submit h keyNamespace (Nat.repr i) (ack i))).length
      ≤ 3 + n := by
    omega
  rw [runN_split, List.getElem?_append_right hle, hlen]
  have h31 : 3 + n - (2 + n) = 1 := by omega
  rw [h31]
  rfl

theorem submittedPairs_fst_runN (n : ℕ) (clk : ℕ → ℤ) (h : ℤ) (ack : ℕ → Bool) :
    (submittedPairs (runN n clk h ack)).map Prod.fst = List.replicate n keyNamespace := by
  rw [submittedPairs_runN, List.map_map]
  simp [Function.comp_def]

/-! ## Concrete run parameters used in counterexamples and witnesses -/

/-- A concrete clock: the start reading is 1 000 000 µs, every later
reading 3 000 000 µs, so the measured elapsed time is 2 000 000 µs = 2 s. -/
def clk0 : ℕ → ℤ := fun k => if k = 0 then 1000000 else 3000000

/-- A concrete non-null client handle. -/
def h0 : ℤ := 7

/-- A collaborator that acknowledges every submission. -/
def ackTrue : ℕ → Bool := fun _ => true

/-- A collaborator for which every submission fails (is never acknowledged). -/
def ackFalse : ℕ → Bool := fun _ => false

/-- A command line supplying a different address, credential, count and
namespace than the hard-coded ones. -/
def argv0 : List String := ["10.0.0.5:9999", "other-credential", "5", "ns"]

theorem clk0_micros : elapsedMicros (clk0 0) (clk0 1) = 2000000 := by
  norm_num [clk0, elapsedMicros]

/-! ## Predicates formalising the claimed timestamp placement (C3) -/

/-- The start timestamp (clock read 0) is recorded only after the session
has been opened: every start clock-read event occurs strictly after the
connect event in the trace. -/
def startAfterOpen (t : List Event) : Prop :=
  ∀ (i j : ℕ) (ts : ℤ) (a c : String) (hh : ℤ),
    t[i]? = some (Event.clockRead 0 ts) →
    t[j]? = some (Event.connect a c hh) → j < i

/-- The end timestamp (clock read 1) is recorded before the session is
closed: every end clock-read event occurs strictly before the close event
in the trace. -/
def endBeforeClose (t : List Event) : Prop :=
  ∀ (i j : ℕ) (te hh : ℤ),
    t[i]? = some (Event.clockRead 1 te) →
    t[j]? = some (Event.close hh) → i < j

/-! ## Claims -/

/-- C2 fails as stated: in a run where no submission is acknowledged, the
successfully-submitted count is 0, yet the reported TPS is
`NUM_TX / seconds = 5000`, not `0 / seconds = 0`: the harness divides the
attempted count, not the successful count, by the elapsed time. -/
theorem c2_tps_counterexample :
    successfulCount (run clk0 h0 ackFalse) = 0
    ∧ reportsOf (run clk0 h0 ackFalse) = [reportItems NUM_TX 2000000]
    ∧ tpsOf NUM_TX 2000000 = DVal.fin 5000
    ∧ ddiv ((successfulCount (run clk0 h0 ackFalse) : ℕ) : ℚ) (elapsedSeconds 2000000) =
        DVal.fin 0
    ∧ DVal.fin (5000 : ℚ) ≠ DVal.fin (0 : ℚ) := by
  have hsc : successfulCount (run clk0 h0 ackFalse) = 0 := by
    rw [run, successfulCount_runN]
    simp [ackFalse]
  refine ⟨hsc, ?_, ?_, ?_, ?_⟩
  · rw [run, reportsOf_runN, clk0_micros]
  · norm_num [tpsOf, ddiv, elapsedSeconds, NUM_TX]
  · rw [hsc]
    norm_num [ddiv, elapsedSeconds]
  · simp

/-- C2 (amended): the reported TPS equals the attempted count `NUM_TX`
divided by the elapsed seconds — which coincides with the
successfully-submitted count whenever every submission is acknowledged —
and when the elapsed duration is zero the IEEE division yields `+∞`, a
defined sentinel, never a division-by-zero fault. -/
theorem c2_tps_computation (clk : ℕ → ℤ) (h : ℤ) (ack : ℕ → Bool)
    (hall : ∀ i, ack i = true) :
    reportsOf (run clk h ack) = [reportItems NUM_TX (elapsedMicros (clk 0) (clk 1))]
    ∧ OutItem.dbl (tpsOf NUM_TX (elapsedMicros (clk 0) (clk 1)))
        ∈ reportItems NUM_TX (elapsedMicros (clk 0) (clk 1))
    ∧ (∀ micros : ℤ, tpsOf NUM_TX micros =
        if micros = 0 then DVal.posInf else DVal.fin ((NUM_TX : ℚ) / elapsedSeconds micros))
    ∧ successfulCount (run clk h ack) = NUM_TX := by
  refine ⟨reportsOf_runN NUM_TX clk h ack, by simp [reportItems], ?_, ?_⟩
  · intro micros
    by_cases hm : micros = 0
    · subst hm
      norm_num [tpsOf, ddiv, elapsedSeconds, NUM_TX]
    · have hs : elapsedSeconds micros ≠ 0 := by
        simp only [elapsedSeconds, div_eq_zero_iff]
        simp [hm]
      simp [tpsOf, ddiv, hs, hm]
  · rw [run, successfulCount_runN]
    rw [List.countP_eq_length.mpr (fun a _ => hall a)]
    simp [NUM_TX]

/-- Witness for `c2_tps_computation` at the all-acknowledging collaborator
`ackTrue` and the concrete clock `clk0`. -/
theorem c2_tps_computation_witness :
    (∀ i, ackTrue i = true)
    ∧ (reportsOf (run clk0 h0 ackTrue) = [reportItems NUM_TX (elapsedMicros (clk0 0) (clk0 1))]
      ∧ OutItem.dbl (tpsOf NUM_TX (elapsedMicros (clk0 0) (clk0 1)))
          ∈ reportItems NUM_TX (elapsedMicros (clk0 0) (clk0 1))
      ∧ (∀ micros : ℤ, tpsOf NUM_TX micros =
          if micros = 0 then DVal.posInf else DVal.fin ((NUM_TX : ℚ) / elapsedSeconds micros))
      ∧ successfulCount (run clk0 h0 ackTrue) = NUM_TX) :=
  ⟨fun _ => rfl, c2_tps_computation clk0 h0 ackTrue (fun _ => rfl)⟩

/-- C3 fails as stated: in the trace of a concrete run, the start clock
read is the event at index 0 and the connect event is at index 1, so the
start timestamp is recorded before — not after — the session is opened;
and the close event (index 2 + NUM_TX) precedes the end clock read
(index 3 + NUM_TX), so the end timestamp is recorded after — not before —
the session is closed. -/
theorem c3_timestamps_counterexample :
    ¬ startAfterOpen (run clk0 h0 ackTrue) ∧ ¬ endBeforeClose (run clk0 h0 ackTrue) := by
  constructor
  · intro hSA
    unfold startAfterOpen at hSA
    have h0e : (run clk0 h0 ackTrue)[0]? = some (Event.clockRead 0 (clk0 0)) :=
      runN_getElem_zero NUM_TX clk0 h0 ackTrue
    have h1e : (run clk0 h0 ackTrue)[1]? = some (Event.connect targetAddress credential h0) :=
      runN_getElem_one NUM_TX clk0 h0 ackTrue
    exact absurd (hSA 0 1 (clk0 0) targetAddress credential h0 h0e h1e) (by omega)
  · intro hEB
    unfold endBeforeClose at hEB
    have hc : (run clk0 h0 ackTrue)[2 + NUM_TX]? = some (Event.close h0) :=
      runN_getElem_close NUM_TX clk0 h0 ackTrue
    have he : (run clk0 h0 ackTrue)[3 + NUM_TX]? = some (Event.clockRead 1 (clk0 1)) :=
      runN_getElem_clockEnd NUM_TX clk0 h0 ackTrue
    exact absurd (hEB (3 + NUM_TX) (2 + NUM_TX) (clk0 1) h0 he hc) (by omega)

/-- C3 (amended): the start timestamp is read from
`std::chrono::system_clock` (a wall clock, not a monotonic clock) before
the session is opened, and the end timestamp after the session is closed:
the trace begins with the start clock read followed by the connect event,
and after the n submissions come the close event, the end clock read, the
report and the exit; the elapsed duration `clk 1 - clk 0` therefore spans
connection setup, the submission loop and teardown, not the loop alone. -/
theorem c3_timestamps_span_whole_run :
    ∀ (n : ℕ) (clk : ℕ → ℤ) (h : ℤ) (ack : ℕ → Bool),
      (runN n clk h ack).take 2 =
        [Event.clockRead 0 (clk 0), Event.connect targetAddress credential h]
      ∧ (runN n clk h ack).drop (2 + n) =
        [Event.close h, Event.clockRead 1 (clk 1),
         Event.report (reportItems n (elapsedMicros (clk 0) (clk 1))),
         Event.exitCode 0] :=
  fun n clk h ack => ⟨runN_take_two n clk h ack, runN_drop n clk h ack⟩

/-- C4 fails as stated: with a null handle (`0`, modelling a failed
`create_client_instance`), the harness still submits all `NUM_TX`
transactions through the null handle, still prints the full report, and
still exits with status 0 — the result of connection establishment is
never checked. -/
theorem c4_connect_failure_counterexample :
    (submittedPairs (run clk0 0 ackTrue)).length = NUM_TX
    ∧ exitCodesOf (run clk0 0 ackTrue) = [0]
    ∧ reportsOf (run clk0 0 ackTrue) = [reportItems NUM_TX 2000000] := by
  refine ⟨submittedPairs_length_runN NUM_TX clk0 0 ackTrue,
    exitCodesOf_runN NUM_TX clk0 0 ackTrue, ?_⟩
  rw [run, reportsOf_runN, clk0_micros]

/-- C4 (amended): a failure of connection establishment is not detected:
for every clock and every collaborator behaviour, the run with a null
handle still carries the connect event, submits exactly `NUM_TX`
transactions, and exits with status 0; there is no failure path. -/
theorem c4_connect_failure_ignored :
    ∀ (clk : ℕ → ℤ) (ack : ℕ → Bool),
      (run clk 0 ack)[1]? = some (Event.connect targetAddress credential 0)
      ∧ (submittedPairs (run clk 0 ack)).length = NUM_TX
      ∧ exitCodesOf (run clk 0 ack) = [0] :=
  fun clk ack =>
    ⟨runN_getElem_one NUM_TX clk 0 ack,
     submittedPairs_length_runN NUM_TX clk 0 ack,
     exitCodesOf_runN NUM_TX clk 0 ack⟩

/-- C5 fails as stated: in a run in which no submission is acknowledged the
successful submission count is 0, yet no item of the emitted report renders
the number 0 — the report carries the requested count, the elapsed seconds
and the TPS, but no separately tracked successful count. -/
theorem c5_report_counterexample :
    successfulCount (run clk0 h0 ackFalse) = 0
    ∧ reportsOf (run clk0 h0 ackFalse) = [reportItems NUM_TX 2000000]
    ∧ mentionsNat (reportItems NUM_TX 2000000) 0 = false := by
  refine ⟨?_, ?_, ?_⟩
  · rw [run, successfulCount_runN]
    simp [ackFalse]
  · rw [run, reportsOf_runN, clk0_micros]
  · simp only [mentionsNat, reportItems, List.any_cons, List.any_nil]
    norm_num [elapsedSeconds, tpsOf, ddiv, NUM_TX]

/-- C5 (amended): every run reaches the report, and the emitted report
contains the requested transaction count `NUM_TX`, the elapsed seconds and
the computed TPS; the requested count doubles as the submitted count (all
`NUM_TX` submissions are performed unconditionally), and no separately
tracked successful-submission count exists or is reported. -/
theorem c5_report_contents :
    ∀ (clk : ℕ → ℤ) (h : ℤ) (ack : ℕ → Bool),
      reportsOf (run clk h ack) = [reportItems NUM_TX (elapsedMicros (clk 0) (clk 1))]
      ∧ mentionsNat (reportItems NUM_TX (elapsedMicros (clk 0) (clk 1))) NUM_TX = true
      ∧ OutItem.dbl (DVal.fin (elapsedSeconds (elapsedMicros (clk 0) (clk 1))))
          ∈ reportItems NUM_TX (elapsedMicros (clk 0) (clk 1))
      ∧ OutItem.dbl (tpsOf NUM_TX (elapsedMicros (clk 0) (clk 1)))
          ∈ reportItems NUM_TX (elapsedMicros (clk 0) (clk 1))
      ∧ (submittedPairs (run clk h ack)).length = NUM_TX := by
  intro clk h ack
  refine ⟨reportsOf_runN NUM_TX clk h ack, ?_, ?_, ?_,
    submittedPairs_length_runN NUM_TX clk h ack⟩
  · simp [mentionsNat, reportItems]
  · simp [reportItems]
  · simp [reportItems]

/-- Session lifecycle state of the specification (§3, §4.2). -/
inductive SessionState : Type
  | opened
  | closed
deriving DecidableEq

/-- Modelled from the spec: the body of `prellblock::destroy_client_instance`
lives in the `prellblock-client` library, which is not under `src/`; §4.2
specifies `close(session)`: "releases the connection, transitions to Closed.
Idempotent: closing an already-Closed session is a no-op, not an error."
Accordingly, closing any session state yields the Closed state and never an
error. -/
def closeSession : SessionState → Except String SessionState :=
  fun _ => Except.ok SessionState.closed

/-- C6: every run contains exactly one close (`destroy_client_instance`)
event — the straight-line `main` has a single exit path, on which close is
invoked exactly once — and closing an already-Closed session is a no-op
that yields the Closed state without raising an error. -/
theorem c6_close_exactly_once :
    (∀ (clk : ℕ → ℤ) (h : ℤ) (ack : ℕ → Bool), closeCount (run clk h ack) = 1)
    ∧ closeSession SessionState.closed = Except.ok SessionState.closed :=
  ⟨fun clk h ack => closeCount_runN NUM_TX clk h ack, rfl⟩

/-! ## Digit-length bound for the value buffer (C7) -/

theorem toDigitsCore_length_le :
    ∀ (fuel k n : ℕ) (ds : List Char), n < 10 ^ k → 1 ≤ k →
      (Nat.toDigitsCore 10 fuel n ds).length ≤ k + ds.length := by
  intro fuel
  induction fuel with
  | zero =>
    intro k n ds _ _
    simp [Nat.toDigitsCore]
  | succ fuel ih =>
    intro k n ds hn hk
    simp only [Nat.toDigitsCore]
    by_cases h10 : n / 10 = 0
    · simp only [h10, if_pos]
      simp
      omega
    · simp only [h10, if_neg, ite_false]
      have hk2 : 2 ≤ k := by
        by_contra hlt
        have hk1 : k = 1 := by omega
        subst hk1
        have hn10 : n < 10 := by simpa using hn
        exact h10 (Nat.div_eq_of_lt hn10)
      have hna : n / 10 < 10 ^ (k - 1) := by
        have hksplit : 10 ^ k = 10 * 10 ^ (k - 1) := by
          rw [← pow_succ']
          congr 1
          omega
        have hlt : n < 10 * 10 ^ (k - 1) := by
          rw [← hksplit]
          exact hn
        exact Nat.div_lt_of_lt_mul hlt
      have hrec := ih (k - 1) (n / 10) (Nat.digitChar (n % 10) :: ds) hna (by omega)
      simp only [List.length_cons] at hrec
      omega

theorem repr_length_le (k n : ℕ) (hn : n < 10 ^ k) (hk : 1 ≤ k) :
    (Nat.repr n).length ≤ k := by
  have h := toDigitsCore_length_le (n + 1) k n [] hn hk
  simpa [Nat.repr, Nat.toDigits, String.length, List.asString] using h

theorem sprintfBytes_le_of_lt_numTx :
    ∀ i : ℕ, i < NUM_TX → sprintfBytes i ≤ valueBufferCapacity := by
  intro i hi
  have hi4 : i < 10 ^ 4 := by
    simpa [NUM_TX] using hi
  have h4 : (Nat.repr i).length ≤ 4 := repr_length_le 4 i hi4 (by norm_num)
  simp only [sprintfBytes, valueBufferCapacity]
  omega

/-- C1 fails as universally stated: the claim quantifies over every N ≥ 0,
but for N = 10^9 + 1 the run's iteration i = 10^9 formats an 11-byte string
(10 decimal digits plus the terminating NUL) into the 10-byte buffer
`const char number[10]` — the out-of-bounds `sprintf` write the spec flags
as the original harness's fixed-buffer bug — so the claimed value sequence
is not delivered by the source for such N. -/
theorem c1_submission_counterexample :
    10 ^ 9 < 10 ^ 9 + 1 ∧ valueBufferCapacity < sprintfBytes (10 ^ 9) := by
  decide

/-- C1 (amended): for every N for which all generated value strings fit the
value buffer including the terminator — in particular the configured
N = 10000 — a run submits exactly N transactions whose values are the
decimal strings "0" through "N-1" in strictly increasing order with no
gaps, duplicates or reordering (the submitted pairs are literally the map
of decimal formatting over `List.range N`), and the key namespace is the
same fixed string `"prellblock"` in every submitted transaction. -/
theorem c1_submission_sequence_bounded :
    ∀ (n : ℕ) (clk : ℕ → ℤ) (h : ℤ) (ack : ℕ → Bool),
      (∀ i, i < n → sprintfBytes i ≤ valueBufferCapacity) →
      submittedPairs (runN n clk h ack) =
        (List.range n).map (fun i => (keyNamespace, Nat.repr i))
      ∧ (submittedPairs (runN n clk h ack)).length = n
      ∧ (submittedPairs (runN n clk h ack)).map Prod.fst = List.replicate n keyNamespace :=
  fun n clk h ack _hfit =>
    ⟨submittedPairs_runN n clk h ack,
     submittedPairs_length_runN n clk h ack,
     submittedPairs_fst_runN n clk h ack⟩

/-- Witness for `c1_submission_sequence_bounded` at the configured count
`NUM_TX = 10000`, whose value strings all fit the buffer. -/
theorem c1_submission_sequence_bounded_witness :
    (∀ i, i < NUM_TX → sprintfBytes i ≤ valueBufferCapacity)
    ∧ (submittedPairs (runN NUM_TX clk0 h0 ackTrue) =
        (List.range NUM_TX).map (fun i => (keyNamespace, Nat.repr i))
      ∧ (submittedPairs (runN NUM_TX clk0 h0 ackTrue)).length = NUM_TX
      ∧ (submittedPairs (runN NUM_TX clk0 h0 ackTrue)).map Prod.fst =
          List.replicate NUM_TX keyNamespace) :=
  ⟨sprintfBytes_le_of_lt_numTx,
   c1_submission_sequence_bounded NUM_TX clk0 h0 ackTrue sprintfBytes_le_of_lt_numTx⟩

/-- C7: for the configured transaction count `NUM_TX = 10000`, every
generated value string (the decimal representation of `i` for `i < NUM_TX`)
together with the terminating NUL fits within the 10-byte value buffer
`const char number[10]`: `sprintf` never writes out of bounds. -/
theorem c7_value_fits_buffer :
    ∀ i : ℕ, i < NUM_TX → (Nat.repr i).length + 1 ≤ valueBufferCapacity :=
  fun i hi => sprintfBytes_le_of_lt_numTx i hi

/-- Witness for `c7_value_fits_buffer` at the largest generated counter. -/
theorem c7_value_fits_buffer_witness :
    9999 < NUM_TX ∧ (Nat.repr 9999).length + 1 ≤ valueBufferCapacity :=
  ⟨by decide, c7_value_fits_buffer 9999 (by decide)⟩

/-- C8 fails as stated: the harness accepts no configuration.  Supplying a
command line that asks for a different address, credential, count (5) and
namespace changes nothing: the run still connects to the hard-coded
`127.0.0.1:3133`, still submits 10000 transactions, and still uses the key
`"prellblock"` throughout. -/
theorem c8_configurability_counterexample :
    (runConfigured argv0 clk0 h0 ackTrue)[1]? =
      some (Event.connect targetAddress credential h0)
    ∧ targetAddress ≠ "10.0.0.5:9999"
    ∧ (submittedPairs (runConfigured argv0 clk0 h0 ackTrue)).length = 10000
    ∧ (10000 : ℕ) ≠ 5
    ∧ (submittedPairs (runConfigured argv0 clk0 h0 ackTrue)).map Prod.fst =
        List.replicate 10000 keyNamespace
    ∧ keyNamespace ≠ "ns" := by
  refine ⟨runN_getElem_one NUM_TX clk0 h0 ackTrue, by decide,
    submittedPairs_length_runN NUM_TX clk0 h0 ackTrue, by decide,
    submittedPairs_fst_runN NUM_TX clk0 h0 ackTrue, by decide⟩

/-- C8 (amended): the target address, the credential, the transaction count
and the key namespace are hard-coded compile-time constants
(`"127.0.0.1:3133"`, the fixed token, `10000`, `"prellblock"`): the harness
takes no configurable inputs, its trace is independent of the command line,
and every run uses exactly these constants. -/
theorem c8_fixed_configuration :
    ∀ (argv : List String) (clk : ℕ → ℤ) (h : ℤ) (ack : ℕ → Bool),
      runConfigured argv clk h ack = run clk h ack
      ∧ (run clk h ack)[1]? = some (Event.connect targetAddress credential h)
      ∧ (submittedPairs (run clk h ack)).length = NUM_TX
      ∧ (submittedPairs (run clk h ack)).map Prod.fst = List.replicate NUM_TX keyNamespace :=
  fun _argv clk h ack =>
    ⟨rfl,
     runN_getElem_one NUM_TX clk h ack,
     submittedPairs_length_runN NUM_TX clk h ack,
     submittedPairs_fst_runN NUM_TX clk h ack⟩

/-- Normalisation of a trace that blanks out everything the external
collaborator chose: the connect handle, the submit handle and the submit
acknowledgment.  Two runs agree after this erasure exactly when the
harness's own behaviour is identical. -/
def eraseExternals : Event → Event
  | Event.connect a c _ => Event.connect a c 0
  | Event.submit _ k v _ => Event.submit 0 k v true
  | Event.close _ => Event.close 0
  | e => e

/-- C9: whatever handle `create_client_instance` returns and whatever each
`send_key_value` returns, the harness performs exactly `NUM_TX = 10000`
submit calls, reports `NUM_TX` as the transaction count, and exits with
code 0; the trace is identical across all collaborator behaviours up to the
uninspected handle and acknowledgment values. -/
theorem c9_collaborator_independent :
    ∀ (clk : ℕ → ℤ) (h h2 : ℤ) (ack ack2 : ℕ → Bool),
      (run clk h ack).map eraseExternals = (run clk h2 ack2).map eraseExternals
      ∧ (submittedPairs (run clk h ack)).length = NUM_TX
      ∧ reportsOf (run clk h ack) = [reportItems NUM_TX (elapsedMicros (clk 0) (clk 1))]
      ∧ mentionsNat (reportItems NUM_TX (elapsedMicros (clk 0) (clk 1))) NUM_TX = true
      ∧ exitCodesOf (run clk h ack) = [0] := by
  intro clk h h2 ack ack2
  refine ⟨?_, submittedPairs_length_runN NUM_TX clk h ack,
    reportsOf_runN NUM_TX clk h ack, ?_, exitCodesOf_runN NUM_TX clk h ack⟩
  · simp [run, runN, eraseExternals, List.map_map, Function.comp_def]
  · simp [mentionsNat, reportItems]

/-- C10: the harness is deterministic — two runs observing the same clock
readings (at the two points where the clock is read) and the same
collaborator responses produce the identical trace, hence the identical
(namespace, value) submission sequence and the identical report. -/
theorem c10_deterministic :
    ∀ (clk clk2 : ℕ → ℤ) (h h2 : ℤ) (ack ack2 : ℕ → Bool),
      clk 0 = clk2 0 → clk 1 = clk2 1 → h = h2 → ack = ack2 →
      run clk h ack = run clk2 h2 ack2 := by
  intro clk clk2 h h2 ack ack2 e0 e1 eh ea
  subst eh
  subst ea
  simp [run, runN, elapsedMicros, e0, e1]

/-- A second concrete clock that agrees with `clkA` on the two readings the
program performs but differs elsewhere. -/
def clkA : ℕ → ℤ := fun k => (k : ℤ)

/-- See `clkA`. -/
def clkB : ℕ → ℤ := fun k => if k ≤ 1 then (k : ℤ) else 99

/-- Witness for `c10_deterministic`: two genuinely different clock
functions that agree on the readings actually taken yield identical
traces. -/
theorem c10_deterministic_witness :
    clkA 0 = clkB 0 ∧ clkA 1 = clkB 1 ∧ h0 = h0 ∧ ackTrue = ackTrue
    ∧ run clkA h0 ackTrue = run clkB h0 ackTrue :=
  ⟨rfl, rfl, rfl, rfl,
   c10_deterministic clkA clkB h0 h0 ackTrue ackTrue rfl rfl rfl rfl⟩

end CClient
